import Mathlib

set_option maxHeartbeats 1000000

/-!
# Register-level GPIO simulation core

Shallow embedding of the register-level GPIO simulation core of the
FOSSEE-OSHW Arduino simulator.  The embedded functions are translated from
`src/src/ArduinoSimulator.jsx` (the interval-driven variant, whose tick is
`simulateArduinoCode`) and from the revised component in
`src/unnamed/part_002` (whose engine consists of `setupCPURegistersDirectly`,
the `simulationLoop` body, `handleButtonPress`, `getPortForPin`,
`getBitForPin`, the listener of `setupPortListeners`, the dynamic-rebinding
block of `handlePinChange` and `resetSimulation`).

AVR I/O registers live in `Uint8Array`-backed data memory, so every register
write is masked to 8 bits.  A register is modelled as a `Nat` together with
the source's bitwise operations.
-/

/-- Register write `reg = reg | (1 << bit)` stored back into an 8-bit cell. -/
def setBit (r b : Nat) : Nat := (r ||| (1 <<< b)) % 256

/-- Register write `reg = reg & ~(1 << bit)` stored back into an 8-bit cell
(the JS 32-bit complement restricted to the low 8 bits is
`255 ^^^ (1 <<< b)`). -/
def clearBit (r b : Nat) : Nat := (r &&& (255 ^^^ (1 <<< b))) % 256

/-- Identity of an emulated AVR I/O port (`portB`, `portC`, `portD`). -/
inductive PortId where
  | B
  | C
  | D
deriving DecidableEq

/-- The three 8-bit registers of one AVR I/O port: data direction (`DDR`),
output/pull-up (`PORT`) and input (`PIN`). -/
structure PortState where
  ddr : Nat
  portReg : Nat
  pinReg : Nat
deriving DecidableEq

/-- The register bank: the three I/O ports of the emulated ATmega328P. -/
structure AVRState where
  portB : PortState
  portC : PortState
  portD : PortState
deriving DecidableEq

def AVRState.get (s : AVRState) : PortId → PortState
  | .B => s.portB
  | .C => s.portC
  | .D => s.portD

def AVRState.set (s : AVRState) : PortId → PortState → AVRState
  | .B, p => { s with portB := p }
  | .C, p => { s with portC := p }
  | .D, p => { s with portD := p }

/-- avr8js `AVRIOPort.setDDR(bit, isOutput)`: writes the port's DDR bit. -/
def PortState.setDDR (p : PortState) (b : Nat) (isOutput : Bool) : PortState :=
  { p with ddr := if isOutput then setBit p.ddr b else clearBit p.ddr b }

/-- avr8js `AVRIOPort.setPort(bit, value)`: writes the port's PORT
(output / pull-up) register bit. -/
def PortState.setPort (p : PortState) (b : Nat) (v : Bool) : PortState :=
  { p with portReg := if v then setBit p.portReg b else clearBit p.portReg b }

/-- avr8js `AVRIOPort.setPin(bit, value)`: drives the external level of a
pin; the PIN register reflects the driven level for bits configured as
input (`DDR` bit = 0); for output bits the PIN register keeps mirroring
`PORT`, so the write has no register effect. -/
def PortState.setPin (p : PortState) (b : Nat) (v : Bool) : PortState :=
  if p.ddr.testBit b then p
  else { p with pinReg := if v then setBit p.pinReg b else clearBit p.pinReg b }

/-- `getPinPortAndBit` from `src/src/ArduinoSimulator.jsx`: maps an Arduino
digital pin to its AVR port and bit (`0-7 → PORTD` with bit = pin,
`8-13 → PORTB` with bit = pin - 8) and `null` (here `none`) otherwise.
Pins are naturals, so the source's `pin >= 0` guard is automatic. -/
def getPinPortAndBit (pin : Nat) : Option (PortId × Nat) :=
  if pin ≤ 7 then some (PortId.D, pin)
  else if pin ≤ 13 then some (PortId.B, pin - 8)
  else none

/-- `getPortForPin` from `src/unnamed/part_002`: same port mapping but with
an explicit fallback — an out-of-range pin resolves to port D. -/
def getPortForPin (pin : Nat) : PortId :=
  if pin ≤ 7 then PortId.D
  else if pin ≤ 13 then PortId.B
  else PortId.D

/-- `getBitForPin` from `src/unnamed/part_002`; out-of-range pins fall back
to bit 0. -/
def getBitForPin (pin : Nat) : Nat :=
  if pin ≤ 7 then pin
  else if pin ≤ 13 then pin - 8
  else 0

/-- The `pin >= 8 ? portB : portD` port choice used by
`setupCPURegistersDirectly` (and cached in the `portConfig` record that the
simulation loop reads). -/
def portOfPin (pin : Nat) : PortId := if 8 ≤ pin then PortId.B else PortId.D

/-- The matching `pin >= 8 ? pin - 8 : pin` bit choice of
`setupCPURegistersDirectly`. -/
def bitOfPin (pin : Nat) : Nat := if 8 ≤ pin then pin - 8 else pin

/-- Register effect of `setupCPURegistersDirectly` from
`src/unnamed/part_002`: the LED pin becomes an output (`DDR` bit set), the
button pin becomes an input (`DDR` bit cleared) with pull-up enabled
(`PORT` bit set).  Nothing else is touched. -/
def setupCPURegistersDirectly (ledPin buttonPin : Nat) (s : AVRState) : AVRState :=
  let ledPid := portOfPin ledPin
  let btnPid := portOfPin buttonPin
  let ledBit := bitOfPin ledPin
  let buttonBit := bitOfPin buttonPin
  let s1 := s.set ledPid ((s.get ledPid).setDDR ledBit true)
  let s2 := s1.set btnPid ((s1.get btnPid).setDDR buttonBit false)
  s2.set btnPid ((s2.get btnPid).setPort buttonBit true)

/-- Engine part of `handleButtonPress` from `src/unnamed/part_002`:
`pressed` drives the button pin low, released drives it high
(INPUT_PULLUP convention), resolving through
`getPortForPin` / `getBitForPin`. -/
def handleButtonPress (pressed : Bool) (buttonPin : Nat) (s : AVRState) : AVRState :=
  let pid := getPortForPin buttonPin
  s.set pid ((s.get pid).setPin (getBitForPin buttonPin) (!pressed))

/-- One Derivation Loop tick: the loop-logic body of `simulationLoop` in
`src/unnamed/part_002`.  It reads the button's PIN bit, computes the
negation, and writes the LED's PORT bit only when the value changes.  The
`(port, bit)` bindings are the ones `setupCPURegistersDirectly` derives for
the current pin configuration. -/
def simulationLoop (ledPin buttonPin : Nat) (s : AVRState) : AVRState :=
  let buttonState := (s.get (portOfPin buttonPin)).pinReg.testBit (bitOfPin buttonPin)
  let ledState := !buttonState
  let currentLedPortState := (s.get (portOfPin ledPin)).portReg.testBit (bitOfPin ledPin)
  if ledState = currentLedPortState then s
  else s.set (portOfPin ledPin) ((s.get (portOfPin ledPin)).setPort (bitOfPin ledPin) ledState)

/-- Register effect of the dynamic re-binding block of `handlePinChange` in
`src/unnamed/part_002`: while a simulation is running it re-runs
`setupCPURegistersDirectly` with the new pin pair; the old pins are not
reset to a neutral state. -/
def handlePinChange (newLedPin newButtonPin : Nat) (s : AVRState) : AVRState :=
  setupCPURegistersDirectly newLedPin newButtonPin s

/-- One pass of the LED listener installed by `setupPortListeners` in
`src/unnamed/part_002`.  `last` models `lastLedValueRef.current`: `none` is
its initial numeric `0` (strictly unequal, in JS, to every boolean), `some b`
a previously reported boolean.  The result is the updated cache paired with
the emitted notification (`none` = no notification emitted). -/
def ledListenerPass (portRegVal ledBit : Nat) (last : Option Bool) : Option Bool × Option Bool :=
  let isHigh := portRegVal.testBit ledBit
  let changed := match last with
    | none => true
    | some b => b != isHigh
  if changed then (some isHigh, some isHigh) else (last, none)

/-- Inputs read by the interval tick `simulateArduinoCode` in
`src/src/ArduinoSimulator.jsx`: which component roles are on the canvas, the
configured pins, and the React `buttonPressed` state. -/
structure SimInput where
  hasLED : Bool
  hasButton : Bool
  ledPin : Nat
  buttonPin : Nat
  buttonPressed : Bool
deriving DecidableEq

/-- `simulateArduinoCode` from `src/src/ArduinoSimulator.jsx`: one interval
tick.  It first re-applies the pin configuration (LED `DDR` bit set; if a
button is present and its pin resolvable, button `DDR` bit cleared and
pull-up bit set), then either derives the LED from the button (both roles
present and button pin resolvable: button PIN bit := not pressed, LED PORT
bit := pressed) or forces the LED PORT bit high (LED present, no usable
button).  An unresolvable LED pin aborts the tick; a session with neither
role is a no-op. -/
def simulateArduinoCode (inp : SimInput) (s : AVRState) : AVRState :=
  if !inp.hasLED && !inp.hasButton then s else
  match getPinPortAndBit inp.ledPin with
  | none => s
  | some (lp, lb) =>
    let s1 := s.set lp ((s.get lp).setDDR lb true)
    match getPinPortAndBit inp.buttonPin with
    | some (bp, bb) =>
      let s2 := if inp.hasButton then
          let t := s1.set bp ((s1.get bp).setDDR bb false)
          t.set bp ((t.get bp).setPort bb true)
        else s1
      if inp.hasLED && inp.hasButton then
        let s3 := s2.set bp ((s2.get bp).setPin bb (!inp.buttonPressed))
        s3.set lp ((s3.get lp).setPort lb inp.buttonPressed)
      else if inp.hasLED then
        s2.set lp ((s2.get lp).setPort lb true)
      else s2
    | none =>
      if inp.hasLED then
        s1.set lp ((s1.get lp).setPort lb true)
      else s1

/-- The all-zero register bank: a freshly created (or fully cleared)
`cpu.data` register slice. -/
def zeroAVRState : AVRState := ⟨⟨0, 0, 0⟩, ⟨0, 0, 0⟩, ⟨0, 0, 0⟩⟩

/-- Observable session state touched by `resetSimulation` in
`src/src/ArduinoSimulator.jsx`: the register bank (the register slice of
`cpu.data`), the reported LED level and the React button state. -/
structure Session where
  regs : AVRState
  ledReported : Bool
  buttonPressedState : Bool
deriving DecidableEq

/-- `resetSimulation` from `src/src/ArduinoSimulator.jsx`:
`cpu.data.fill(0)` zeroes every register of every port (the explicit
`PORT` / `DDR` writes that follow are then redundant), the LED is reported
off (`updateLEDState(false)`) and the button state reset to released
(`setButtonPressed(false)`). -/
def resetSimulation (_s : Session) : Session :=
  { regs := zeroAVRState, ledReported := false, buttonPressedState := false }

/-! ## Bit-level lemmas about the register writes -/

theorem testBit_setBit (r b i : Nat) :
    (setBit r b).testBit i = (decide (i < 8) && (r.testBit i || decide (b = i))) := by
  have h256 : (256 : Nat) = 2 ^ 8 := rfl
  rw [setBit, h256, Nat.testBit_mod_two_pow, Nat.testBit_lor, Nat.shiftLeft_eq, one_mul,
    Nat.testBit_two_pow]

theorem testBit_clearBit (r b i : Nat) :
    (clearBit r b).testBit i = (decide (i < 8) && r.testBit i && !decide (b = i)) := by
  have h256 : (256 : Nat) = 2 ^ 8 := rfl
  have h255 : (255 : Nat) = 2 ^ 8 - 1 := rfl
  rw [clearBit, h256, Nat.testBit_mod_two_pow, Nat.testBit_land, h255, Nat.shiftLeft_eq, one_mul,
    Nat.testBit_xor, Nat.testBit_two_pow_sub_one, Nat.testBit_two_pow]
  by_cases h8 : i < 8 <;> by_cases hb : b = i <;> simp [h8, hb]

theorem testBit_setBit_self (r : Nat) {b : Nat} (hb : b < 8) :
    (setBit r b).testBit b = true := by
  simp [testBit_setBit, hb]

theorem testBit_clearBit_self (r b : Nat) :
    (clearBit r b).testBit b = false := by
  simp [testBit_clearBit]

theorem testBit_setBit_of_ne (r : Nat) {b i : Nat} (hne : b ≠ i) (hi : i < 8) :
    (setBit r b).testBit i = r.testBit i := by
  simp [testBit_setBit, hne, hi]

theorem testBit_clearBit_of_ne (r : Nat) {b i : Nat} (hne : b ≠ i) (hi : i < 8) :
    (clearBit r b).testBit i = r.testBit i := by
  simp [testBit_clearBit, hne, hi]

theorem setBit_setBit_self (r b : Nat) : setBit (setBit r b) b = setBit r b := by
  apply Nat.eq_of_testBit_eq
  intro i
  simp only [testBit_setBit]
  by_cases h8 : i < 8 <;> by_cases hb : b = i <;> simp [h8, hb]

theorem clearBit_clearBit_self (r b : Nat) : clearBit (clearBit r b) b = clearBit r b := by
  apply Nat.eq_of_testBit_eq
  intro i
  simp only [testBit_clearBit]
  by_cases h8 : i < 8 <;> by_cases hb : b = i <;> simp [h8, hb]

theorem clearBit_setBit_clearBit_setBit (r b1 b2 : Nat) :
    clearBit (setBit (clearBit (setBit r b1) b2) b1) b2 = clearBit (setBit r b1) b2 := by
  apply Nat.eq_of_testBit_eq
  intro i
  simp only [testBit_setBit, testBit_clearBit]
  by_cases h8 : i < 8 <;> by_cases h1 : b1 = i <;> by_cases h2 : b2 = i <;>
    simp [h8, h1, h2]

/-! ## Register-bank access lemmas -/

theorem AVRState.get_set_self (s : AVRState) (p : PortId) (v : PortState) :
    (s.set p v).get p = v := by
  cases p <;> rfl

theorem AVRState.get_set_of_ne (s : AVRState) {p q : PortId} (h : p ≠ q) (v : PortState) :
    (s.set p v).get q = s.get q := by
  cases p <;> cases q <;> first | rfl | exact absurd rfl h

theorem PortState.setPort_ddr (p : PortState) (b : Nat) (v : Bool) :
    (p.setPort b v).ddr = p.ddr := rfl

theorem PortState.setPort_pinReg (p : PortState) (b : Nat) (v : Bool) :
    (p.setPort b v).pinReg = p.pinReg := rfl

theorem PortState.setPin_ddr (p : PortState) (b : Nat) (v : Bool) :
    (p.setPin b v).ddr = p.ddr := by
  unfold PortState.setPin
  split <;> rfl

theorem PortState.setPin_portReg (p : PortState) (b : Nat) (v : Bool) :
    (p.setPin b v).portReg = p.portReg := by
  unfold PortState.setPin
  split <;> rfl

theorem PortState.setDDR_portReg (p : PortState) (b : Nat) (v : Bool) :
    (p.setDDR b v).portReg = p.portReg := rfl

theorem PortState.setDDR_pinReg (p : PortState) (b : Nat) (v : Bool) :
    (p.setDDR b v).pinReg = p.pinReg := rfl

/-! ## Resolver lemmas -/

theorem getPinPortAndBit_bit_lt {pin : Nat} {p : PortId} {b : Nat}
    (h : getPinPortAndBit pin = some (p, b)) : b < 8 := by
  by_cases h7 : pin ≤ 7
  · simp [getPinPortAndBit, h7] at h
    omega
  · by_cases h13 : pin ≤ 13
    · simp [getPinPortAndBit, h7, h13] at h
      omega
    · simp [getPinPortAndBit, h7, h13] at h

theorem getPinPortAndBit_inj {p1 p2 : Nat} {x : PortId × Nat}
    (h1 : getPinPortAndBit p1 = some x) (h2 : getPinPortAndBit p2 = some x) :
    p1 = p2 := by
  rcases x with ⟨p, b⟩
  by_cases a7 : p1 ≤ 7 <;> by_cases b7 : p2 ≤ 7 <;>
    by_cases a13 : p1 ≤ 13 <;> by_cases b13 : p2 ≤ 13 <;>
    simp [getPinPortAndBit, a7, b7, a13, b13] at h1 h2
  all_goals obtain ⟨hp1, hb1⟩ := h1
  all_goals obtain ⟨hp2, hb2⟩ := h2
  all_goals first
    | omega
    | exact PortId.noConfusion (hp1.trans hp2.symm)

/-! ## Claim theorems -/

/-- Claim C2: the pin-to-port resolver is a pure function mapping every pin
in 0-7 to port D with bit = pin, and every pin in 8-13 to port B with
bit = pin - 8. -/
theorem resolver_maps_pins_to_ports (pin : Nat) :
    (pin ≤ 7 → getPinPortAndBit pin = some (PortId.D, pin)) ∧
    (8 ≤ pin → pin ≤ 13 → getPinPortAndBit pin = some (PortId.B, pin - 8)) := by
  constructor
  · intro h
    simp [getPinPortAndBit, h]
  · intro h8 h13
    simp [getPinPortAndBit, show ¬ pin ≤ 7 by omega, h13]

/-- Witness for claim C2 at pins 5 and 10. -/
theorem resolver_maps_pins_to_ports_witness :
    getPinPortAndBit 5 = some (PortId.D, 5) ∧ getPinPortAndBit 10 = some (PortId.B, 2) :=
  ⟨(resolver_maps_pins_to_ports 5).1 (by decide),
   (resolver_maps_pins_to_ports 10).2 (by decide) (by decide)⟩

/-- Claim C3 counterexample: the resolver does not fail for every pin
below 2 — pin 0 resolves to port D bit 0, so the claimed property is
false at the concrete input 0. -/
theorem resolver_does_not_fail_below_two :
    ¬ (∀ pin : Nat, pin < 2 ∨ 13 < pin → getPinPortAndBit pin = none) := by
  intro h
  exact absurd (h 0 (Or.inl (by decide))) (by decide)

/-- Claim C3 amended: `getPinPortAndBit` returns an unresolved result
exactly for pins above 13; pins 0 and 1 resolve normally (the resolver
implements the raw 0-13 hardware mapping, not the [2,13] assignment
policy), and the part_002 resolver never fails at all, falling back to
port D bit 0 for out-of-range pins. -/
theorem resolver_none_iff_above_13 (pin : Nat) :
    (getPinPortAndBit pin = none ↔ 13 < pin) ∧
    getPortForPin 14 = PortId.D ∧ getBitForPin 14 = 0 := by
  refine ⟨?_, rfl, rfl⟩
  unfold getPinPortAndBit
  split_ifs with h1 h2 <;> simp <;> omega

/-- Claim C8: after `resetSimulation`, every DDR, PORT and PIN register of
every port reads zero, the LED is reported off and the button is reset to
released. -/
theorem reset_clears_registers_led_button (s : Session) :
    (∀ p : PortId,
      ((resetSimulation s).regs.get p).ddr = 0 ∧
      ((resetSimulation s).regs.get p).portReg = 0 ∧
      ((resetSimulation s).regs.get p).pinReg = 0) ∧
    (resetSimulation s).ledReported = false ∧
    (resetSimulation s).buttonPressedState = false := by
  refine ⟨fun p => ?_, rfl, rfl⟩
  cases p <;> exact ⟨rfl, rfl, rfl⟩

theorem PortState.setDDR_ddr (p : PortState) (b : Nat) (v : Bool) :
    (p.setDDR b v).ddr = if v then setBit p.ddr b else clearBit p.ddr b := rfl

theorem PortState.setPort_portReg (p : PortState) (b : Nat) (v : Bool) :
    (p.setPort b v).portReg = if v then setBit p.portReg b else clearBit p.portReg b := rfl

theorem cond_true_branch {α : Sort u} (a b : α) :
    (if (true : Bool) = true then a else b) = a := rfl

theorem cond_false_branch {α : Sort u} (a b : α) :
    (if (false : Bool) = true then a else b) = b := rfl

theorem simulationLoop_def (ledPin buttonPin : Nat) (s : AVRState) :
    simulationLoop ledPin buttonPin s =
      if (!(s.get (portOfPin buttonPin)).pinReg.testBit (bitOfPin buttonPin))
          = (s.get (portOfPin ledPin)).portReg.testBit (bitOfPin ledPin) then s
      else s.set (portOfPin ledPin)
        ((s.get (portOfPin ledPin)).setPort (bitOfPin ledPin)
          (!(s.get (portOfPin buttonPin)).pinReg.testBit (bitOfPin buttonPin))) := rfl

theorem get_set_setPort_pinReg (s : AVRState) (P Q : PortId) (b : Nat) (v : Bool) :
    ((s.set P ((s.get P).setPort b v)).get Q).pinReg = (s.get Q).pinReg := by
  by_cases h : P = Q
  · subst h
    rw [AVRState.get_set_self, PortState.setPort_pinReg]
  · rw [AVRState.get_set_of_ne _ h]

/-- Claim C1: with the session configured for LED pin 10 and Button pin 2,
pressing the button and advancing one Derivation Loop tick drives the LED
PORT bit (port B, bit 2) high, and releasing then advancing one tick drives
it low; in general, after any tick of a session whose two roles sit on pins
0-13, the LED output bit equals the logical negation of the button input
bit. -/
theorem led_mirrors_negated_button :
    (((simulationLoop 10 2
        (handleButtonPress true 2
          (setupCPURegistersDirectly 10 2 zeroAVRState))).get PortId.B).portReg.testBit 2
        = true ∧
     ((simulationLoop 10 2
        (handleButtonPress false 2
          (simulationLoop 10 2
            (handleButtonPress true 2
              (setupCPURegistersDirectly 10 2 zeroAVRState))))).get PortId.B).portReg.testBit 2
        = false) ∧
    ∀ ledPin buttonPin : Nat, ledPin ≤ 13 → buttonPin ≤ 13 → ∀ s : AVRState,
      ((simulationLoop ledPin buttonPin s).get (portOfPin ledPin)).portReg.testBit
          (bitOfPin ledPin)
        = !((simulationLoop ledPin buttonPin s).get (portOfPin buttonPin)).pinReg.testBit
            (bitOfPin buttonPin) := by
  refine ⟨⟨by decide, by decide⟩, ?_⟩
  intro ledPin buttonPin hlp _hbp s
  have hlb : bitOfPin ledPin < 8 := by
    unfold bitOfPin
    split <;> omega
  rw [simulationLoop_def]
  by_cases hcond : (!(s.get (portOfPin buttonPin)).pinReg.testBit (bitOfPin buttonPin))
      = (s.get (portOfPin ledPin)).portReg.testBit (bitOfPin ledPin)
  · rw [if_pos hcond]
    exact hcond.symm
  · rw [if_neg hcond, AVRState.get_set_self, get_set_setPort_pinReg]
    rw [PortState.setPort_portReg]
    cases hbtn : (s.get (portOfPin buttonPin)).pinReg.testBit (bitOfPin buttonPin) <;>
      simp [testBit_setBit_self _ hlb, testBit_clearBit_self]

/-- Witness for claim C1 applied at pins 10 and 2 on the zero bank. -/
theorem led_mirrors_negated_button_witness :
    ((simulationLoop 10 2 zeroAVRState).get (portOfPin 10)).portReg.testBit (bitOfPin 10)
      = !((simulationLoop 10 2 zeroAVRState).get (portOfPin 2)).pinReg.testBit (bitOfPin 2) :=
  led_mirrors_negated_button.2 10 2 (by decide) (by decide) zeroAVRState

/-- Claim C4 counterexample: a tick whose button pin is unresolvable (pin
14) with a resolvable LED pin is not a no-op on the register bank — from
the all-zero bank it sets the LED DDR and PORT bits, so registers change
and the tick is not skipped. -/
theorem unresolved_button_tick_changes_registers :
    simulateArduinoCode ⟨true, true, 10, 14, false⟩ zeroAVRState ≠ zeroAVRState := by
  decide

/-- Claim C4 amended: a tick whose LED pin is unresolvable (outside 0-13)
is a no-op on the register bank — the tick is skipped, no register changes,
and no exception propagates; when only the button pin is unresolvable, the
operations targeting the button pin are skipped but the tick still
configures and drives the LED. -/
theorem unresolved_led_pin_tick_noop (inp : SimInput) (s : AVRState)
    (h : getPinPortAndBit inp.ledPin = none) : simulateArduinoCode inp s = s := by
  unfold simulateArduinoCode
  rw [h]
  split <;> rfl

/-- Witness for amended claim C4 at the unresolvable LED pin 20. -/
theorem unresolved_led_pin_tick_noop_witness :
    simulateArduinoCode ⟨true, true, 20, 2, false⟩ zeroAVRState = zeroAVRState :=
  unresolved_led_pin_tick_noop ⟨true, true, 20, 2, false⟩ zeroAVRState (by decide)

/-- Claim C5: the Register Configuration Protocol is idempotent — for every
pin pair in the [2,13] range, configuring twice with the same pins leaves
exactly the register state of configuring once, in every port. -/
theorem setup_registers_idempotent (ledPin buttonPin : Nat)
    (_hl2 : 2 ≤ ledPin) (_hl13 : ledPin ≤ 13)
    (_hb2 : 2 ≤ buttonPin) (_hb13 : buttonPin ≤ 13) (s : AVRState) :
    setupCPURegistersDirectly ledPin buttonPin (setupCPURegistersDirectly ledPin buttonPin s)
      = setupCPURegistersDirectly ledPin buttonPin s := by
  by_cases h1 : 8 ≤ ledPin <;> by_cases h2 : 8 ≤ buttonPin <;>
    simp [setupCPURegistersDirectly, portOfPin, bitOfPin, h1, h2, AVRState.set, AVRState.get,
      PortState.setDDR, PortState.setPort, setBit_setBit_self, clearBit_clearBit_self,
      clearBit_setBit_clearBit_setBit]

/-- Witness for claim C5 at the default pin pair (10, 2) on the zero bank. -/
theorem setup_registers_idempotent_witness :
    setupCPURegistersDirectly 10 2 (setupCPURegistersDirectly 10 2 zeroAVRState)
      = setupCPURegistersDirectly 10 2 zeroAVRState :=
  setup_registers_idempotent 10 2 (by decide) (by decide) (by decide) (by decide) zeroAVRState

/-- Claim C9: an observation pass of the LED listener emits a change
notification exactly when the LED PORT bit differs from the previously
reported boolean, and emits nothing when it is unchanged. -/
theorem listener_emits_iff_changed (portRegVal ledBit : Nat) (prev : Bool) :
    (ledListenerPass portRegVal ledBit (some prev)).2
      = (if portRegVal.testBit ledBit = prev then none
         else some (portRegVal.testBit ledBit)) := by
  cases prev <;> cases hH : portRegVal.testBit ledBit <;>
    simp [ledListenerPass, hH]

/-- Claim C6: with only an LED role active (no button on the canvas), one
`simulateArduinoCode` tick forces the LED pin's PORT bit high — the
documented always-on fallback — and every subsequent tick keeps it high. -/
theorem led_only_always_on (inp : SimInput) (lp : PortId) (lb : Nat)
    (hled : inp.hasLED = true) (hbtn : inp.hasButton = false)
    (hres : getPinPortAndBit inp.ledPin = some (lp, lb)) :
    (∀ s : AVRState, ((simulateArduinoCode inp s).get lp).portReg.testBit lb = true) ∧
    ∀ (s : AVRState) (n : Nat),
      ((((simulateArduinoCode inp)^[n + 1]) s).get lp).portReg.testBit lb = true := by
  have hlb : lb < 8 := getPinPortAndBit_bit_lt hres
  have key : ∀ s : AVRState, ((simulateArduinoCode inp s).get lp).portReg.testBit lb = true := by
    intro s
    have hred : simulateArduinoCode inp s
        = (s.set lp ((s.get lp).setDDR lb true)).set lp
            (((s.set lp ((s.get lp).setDDR lb true)).get lp).setPort lb true) := by
      unfold simulateArduinoCode
      rw [hres]
      cases hbres : getPinPortAndBit inp.buttonPin with
      | none => simp [hled, hbtn]
      | some x =>
          rcases x with ⟨bp, bb⟩
          simp [hled, hbtn]
    rw [hred, AVRState.get_set_self, PortState.setPort_portReg]
    simp [testBit_setBit_self _ hlb]
  refine ⟨key, fun s n => ?_⟩
  rw [Function.iterate_succ_apply']
  exact key _

/-- Witness for claim C6 at LED pin 10 on the zero bank. -/
theorem led_only_always_on_witness :
    ((simulateArduinoCode ⟨true, false, 10, 2, false⟩ zeroAVRState).get PortId.B).portReg.testBit 2
      = true :=
  (led_only_always_on ⟨true, false, 10, 2, false⟩ PortId.B 2 rfl rfl (by decide)).1 zeroAVRState

/-- Claim C7: re-binding the LED role from pin 10 to pin 9 (button on pin
2) leaves the whole PORTB output register — in particular old pin 10's
output bit — at its last value, modifies no state outside the bits
addressed by the new configuration (DDRB bit 1, DDRD bit 2, PORTD bit 2),
and if the button is held pressed the next Derivation Loop tick drives the
new pin 9's output bit high. -/
theorem rebind_keeps_old_bits_and_drives_new_pin (s : AVRState) :
    (handlePinChange 9 2 s).portB.portReg = s.portB.portReg ∧
    (handlePinChange 9 2 s).portC = s.portC ∧
    (handlePinChange 9 2 s).portB.pinReg = s.portB.pinReg ∧
    (handlePinChange 9 2 s).portD.pinReg = s.portD.pinReg ∧
    (∀ i : Nat, i < 8 → i ≠ 1 →
      (handlePinChange 9 2 s).portB.ddr.testBit i = s.portB.ddr.testBit i) ∧
    (∀ i : Nat, i < 8 → i ≠ 2 →
      (handlePinChange 9 2 s).portD.ddr.testBit i = s.portD.ddr.testBit i ∧
      (handlePinChange 9 2 s).portD.portReg.testBit i = s.portD.portReg.testBit i) ∧
    (s.portD.pinReg.testBit 2 = false →
      ((simulationLoop 9 2 (handlePinChange 9 2 s)).get (portOfPin 9)).portReg.testBit
          (bitOfPin 9) = true) := by
  have hs : handlePinChange 9 2 s
      = { portB := { ddr := setBit s.portB.ddr 1, portReg := s.portB.portReg,
                     pinReg := s.portB.pinReg },
          portC := s.portC,
          portD := { ddr := clearBit s.portD.ddr 2, portReg := setBit s.portD.portReg 2,
                     pinReg := s.portD.pinReg } } := rfl
  refine ⟨by rw [hs], by rw [hs], by rw [hs], by rw [hs], ?_, ?_, ?_⟩
  · intro i hi hne
    rw [hs]
    exact testBit_setBit_of_ne _ (Ne.symm hne) hi
  · intro i hi hne
    rw [hs]
    exact ⟨testBit_clearBit_of_ne _ (Ne.symm hne) hi,
      testBit_setBit_of_ne _ (Ne.symm hne) hi⟩
  · intro hpress
    rw [hs, simulationLoop_def]
    simp only [show portOfPin 9 = PortId.B from rfl, show bitOfPin 9 = 1 from rfl,
      show portOfPin 2 = PortId.D from rfl, show bitOfPin 2 = 2 from rfl,
      AVRState.get, hpress, Bool.not_false]
    by_cases hcur : s.portB.portReg.testBit 1 = true
    · rw [if_pos hcur.symm]
      exact hcur
    · rw [if_neg (fun h => hcur h.symm)]
      simp [AVRState.set, PortState.setPort, testBit_setBit_self _ (show (1 : Nat) < 8 by omega)]

/-- Witness for claim C7: the tick after the rebind drives pin 9 high when
the button was pressed before the rebind. -/
theorem rebind_keeps_old_bits_witness :
    ((simulationLoop 9 2
        (handlePinChange 9 2
          (handleButtonPress true 2
            (setupCPURegistersDirectly 10 2 zeroAVRState)))).get (portOfPin 9)).portReg.testBit
        (bitOfPin 9) = true :=
  (rebind_keeps_old_bits_and_drives_new_pin
      (handleButtonPress true 2
        (setupCPURegistersDirectly 10 2 zeroAVRState))).2.2.2.2.2.2 (by decide)

/-- Claim C10: every `simulateArduinoCode` tick re-applies the full
register configuration before deriving the LED output, so after any tick
of a session with both roles present on distinct resolvable pins — from an
arbitrarily disturbed register bank — the LED pin's DDR bit is 1, the
button pin's DDR bit is 0, and the button pin's pull-up (PORT) bit is 1. -/
theorem tick_reestablishes_configuration (inp : SimInput) (lp bp : PortId) (lb bb : Nat)
    (hled : inp.hasLED = true) (hbtn : inp.hasButton = true)
    (hlres : getPinPortAndBit inp.ledPin = some (lp, lb))
    (hbres : getPinPortAndBit inp.buttonPin = some (bp, bb))
    (hne : inp.ledPin ≠ inp.buttonPin) (s : AVRState) :
    ((simulateArduinoCode inp s).get lp).ddr.testBit lb = true ∧
    ((simulateArduinoCode inp s).get bp).ddr.testBit bb = false ∧
    ((simulateArduinoCode inp s).get bp).portReg.testBit bb = true := by
  have hlb : lb < 8 := getPinPortAndBit_bit_lt hlres
  have hbb : bb < 8 := getPinPortAndBit_bit_lt hbres
  have hred : simulateArduinoCode inp s
      = (let s1 := s.set lp ((s.get lp).setDDR lb true)
         let t := s1.set bp ((s1.get bp).setDDR bb false)
         let s2 := t.set bp ((t.get bp).setPort bb true)
         let s3 := s2.set bp ((s2.get bp).setPin bb (!inp.buttonPressed))
         s3.set lp ((s3.get lp).setPort lb inp.buttonPressed)) := by
    unfold simulateArduinoCode
    rw [hlres, hbres]
    simp [hled, hbtn]
  rw [hred]
  by_cases hp : lp = bp
  · subst hp
    have hbits : lb ≠ bb := fun hbit => by
      apply hne
      apply getPinPortAndBit_inj hlres
      rw [hbres, hbit]
    simp only [AVRState.get_set_self, PortState.setPort_ddr, PortState.setPin_ddr,
      PortState.setDDR_ddr, PortState.setPort_portReg, PortState.setPin_portReg,
      cond_true_branch, cond_false_branch, if_true, if_false]
    refine ⟨?_, ?_, ?_⟩
    · rw [testBit_clearBit_of_ne _ (Ne.symm hbits) hlb, testBit_setBit_self _ hlb]
    · exact testBit_clearBit_self _ _
    · cases hpr : inp.buttonPressed <;>
        simp [testBit_setBit_of_ne _ hbits hbb, testBit_clearBit_of_ne _ hbits hbb,
          testBit_setBit_self _ hbb]
  · simp only [AVRState.get_set_self, AVRState.get_set_of_ne _ hp,
      AVRState.get_set_of_ne _ (Ne.symm hp), PortState.setPort_ddr, PortState.setPin_ddr,
      PortState.setDDR_ddr, PortState.setPort_portReg, PortState.setPin_portReg,
      cond_true_branch, cond_false_branch, if_true, if_false]
    refine ⟨testBit_setBit_self _ hlb, testBit_clearBit_self _ _, testBit_setBit_self _ hbb⟩

/-- Witness for claim C10 at pins 10 and 2 on a fully disturbed bank. -/
theorem tick_reestablishes_configuration_witness :
    ((simulateArduinoCode ⟨true, true, 10, 2, true⟩
        ⟨⟨255, 255, 255⟩, ⟨255, 255, 255⟩, ⟨255, 255, 255⟩⟩).get PortId.B).ddr.testBit 2
        = true ∧
    ((simulateArduinoCode ⟨true, true, 10, 2, true⟩
        ⟨⟨255, 255, 255⟩, ⟨255, 255, 255⟩, ⟨255, 255, 255⟩⟩).get PortId.D).ddr.testBit 2
        = false ∧
    ((simulateArduinoCode ⟨true, true, 10, 2, true⟩
        ⟨⟨255, 255, 255⟩, ⟨255, 255, 255⟩, ⟨255, 255, 255⟩⟩).get PortId.D).portReg.testBit 2
        = true :=
  tick_reestablishes_configuration ⟨true, true, 10, 2, true⟩ PortId.B PortId.D 2 2
    rfl rfl (by decide) (by decide) (by decide)
    ⟨⟨255, 255, 255⟩, ⟨255, 255, 255⟩, ⟨255, 255, 255⟩⟩
